import Mathlib

/-
Verification of the gradient-descent template in src/template_1.py.

The file embeds the Python source shallowly:
  - numeric vectors and matrices become lists of rationals (the algebraic
    content of the float arrays);
  - the LearningRate schedule, whose formula takes a real exponent, is
    embedded over the reals;
  - runtime failures of the Python code (TypeError, AttributeError,
    NameError, ValueError, ZeroDivisionError) become an error type in
    Except results;
  - methods that read only self.w take the weight list as an explicit
    parameter; methods that touch more state take the whole instance.
-/

namespace GD

/-- Errors the Python runtime can raise while the embedded code runs.
The constructor dimensionMismatch never occurs in the source: it names the
DimensionMismatch error class that the specification postulates, so that
claims about it can be stated and compared with what the code raises. -/
inductive PyError where
  | typeError
  | attributeError
  | nameError
  | valueError
  | zeroDivisionError
  | dimensionMismatch
deriving DecidableEq, Repr

/-- Enum LossFunction of src/template_1.py lines 27-31. -/
inductive LossFunction where
  | MSE
  | MAE
  | LogCosh
  | Huber
deriving DecidableEq, Repr

/-- Dot product of two equally long numeric vectors, the value of
np.matmul on two 1-D arrays. -/
def dot (v w : List ℚ) : ℚ := (List.zipWith (fun a b => a * b) v w).sum

/-- Elementwise difference of two equally long numeric vectors, the value
of the numpy expression v - w on two 1-D arrays of one shape. -/
def vsub (v w : List ℚ) : List ℚ := List.zipWith (fun a b => a - b) v w

/-- Elementwise sum of two equally long numeric vectors. -/
def vadd (v w : List ℚ) : List ℚ := List.zipWith (fun a b => a + b) v w

/-- Scalar times vector, the value of c * v on a scalar and a 1-D array. -/
def smul (c : ℚ) (v : List ℚ) : List ℚ := v.map (fun x => c * x)

/-- Matrix times vector, the value of np.matmul(X, v) for a 2-D X and a
1-D v whose length equals the length of each row of X. -/
def matVec (X : List (List ℚ)) (v : List ℚ) : List ℚ :=
  X.map (fun row => dot row v)

/-- Helper for transpose: prepends the entries of a row, one each, to the
columns built so far (a fresh column per entry when none exist yet). -/
def consCols : List ℚ → List (List ℚ) → List (List ℚ)
  | [], _ => []
  | a :: as, [] => [a] :: consCols as []
  | a :: as, c :: cs => (a :: c) :: consCols as cs

/-- Transpose of a rectangular row-major matrix, the value of
np.transpose on a 2-D array. -/
def transpose : List (List ℚ) → List (List ℚ)
  | [] => []
  | r :: rs => consCols r (transpose rs)

/-- Dataclass LearningRate of src/template_1.py lines 11-17: the schedule
state lambda_, s0, p together with the mutable iteration counter.  The
fields are reals because the formula raises to the real power p. -/
structure LearningRate where
  lambda_ : ℝ
  s0 : ℝ
  p : ℝ
  iteration : ℕ

/-- Method LearningRate.__call__, src/template_1.py lines 19-24: the body
first runs self.iteration += 1 and then returns
lambda_ * (s0 / (s0 + self.iteration)) ** p with the incremented counter.
The embedding returns the rate together with the updated schedule state. -/
noncomputable def LearningRate.call (lr : LearningRate) : ℝ × LearningRate :=
  (lr.lambda_ * (lr.s0 / (lr.s0 + ((lr.iteration : ℝ) + 1))) ^ lr.p,
   { lr with iteration := lr.iteration + 1 })

/-- Instance state that BaseDescent.__init__ (src/template_1.py lines
39-47) creates: the weight vector self.w, the schedule self.lr and the
selected loss function.  VanillaGradientDescent adds no further state, so
its methods also act on this structure. -/
structure BaseDescent where
  w : List ℚ
  lr : LearningRate
  loss_function : LossFunction

/-- Method BaseDescent.predict, src/template_1.py line 88: the value of
np.matmul(X, self.w).  NumPy raises ValueError when the row length of X
differs from the length of w; only self.w is read, so the weight list is
an explicit parameter. -/
def BaseDescent.predict (w : List ℚ) (X : List (List ℚ)) :
    Except PyError (List ℚ) :=
  if ∀ row ∈ X, row.length = w.length then .ok (matVec X w)
  else .error .valueError

/-- Method BaseDescent.calc_loss, src/template_1.py lines 78-79: the body
computes diff = y - self.predict(X) and returns
1/(y.shape[0]) * np.matmul(np.transpose(diff), diff).  NumPy raises
ValueError inside predict or at the subtraction on a shape mismatch, and
Python raises ZeroDivisionError at 1/(y.shape[0]) when y is empty. -/
def BaseDescent.calc_loss (w : List ℚ) (X : List (List ℚ)) (y : List ℚ) :
    Except PyError ℚ :=
  match BaseDescent.predict w X with
  | .error e => .error e
  | .ok yhat =>
    if y.length = yhat.length then
      if y.length = 0 then .error .zeroDivisionError
      else .ok ((1 / (y.length : ℚ)) * dot (vsub y yhat) (vsub y yhat))
    else .error .valueError

/-- Method BaseDescent.calc_gradient, src/template_1.py lines 61-69: the
body is the single statement pass, so the call returns the value None
(here none) for every input and raises nothing. -/
def BaseDescent.calc_gradient (X : List (List ℚ)) (y : List ℚ) :
    Option (List ℚ) :=
  none

/-- Method BaseDescent.update_weights, src/template_1.py lines 52-59: the
body is the single statement pass, so the call returns None (here none)
for every gradient, the gradient argument included when it is itself
None, and raises nothing. -/
def BaseDescent.update_weights (gradient : Option (List ℚ)) :
    Option (List ℚ) :=
  none

/-- Method BaseDescent.step, src/template_1.py lines 49-50:
return self.update_weights(self.calc_gradient(X, y)). -/
def BaseDescent.step (X : List (List ℚ)) (y : List ℚ) : Option (List ℚ) :=
  BaseDescent.update_weights (BaseDescent.calc_gradient X y)

/-- Method VanillaGradientDescent.calc_gradient, src/template_1.py line
105: return 2 * np.matmult(np.transpose(X), y - np.matmult(X, self.w)).
The name np.matmult is not an attribute of numpy (the module defines
np.matmul), so the call raises AttributeError at runtime; this embedding
records the mathematical value of the written expression, reading
np.matmult as np.matmul.  Note that the residual the source writes is
y - X.w, target minus prediction. -/
def VanillaGradientDescent.calc_gradient (w : List ℚ) (X : List (List ℚ))
    (y : List ℚ) : List ℚ :=
  smul 2 (matVec (transpose X) (vsub y (matVec X w)))

/-- Gradient formula the specification states for the full-batch rule:
2 * transpose(X) . (X.w - y), with residual prediction minus target. -/
def specMSEGradient (w : List ℚ) (X : List (List ℚ)) (y : List ℚ) :
    List ℚ :=
  smul 2 (matVec (transpose X) (vsub (matVec X w) y))

/-- Method VanillaGradientDescent.update_weights, src/template_1.py lines
97-101: the body is return -self.lr * gradient, where self.lr is the
LearningRate dataclass instance, not a number.  A dataclass defines no
unary minus, so Python raises TypeError; the schedule is never called
(self.lr() does not appear) and self.w is never assigned, so the instance
state is returned unchanged. -/
def VanillaGradientDescent.update_weights (self : BaseDescent)
    (gradient : List ℚ) : Except PyError (List ℚ) × BaseDescent :=
  (.error .typeError, self)

/-- Method step as inherited by VanillaGradientDescent from BaseDescent:
return self.update_weights(self.calc_gradient(X, y)).  At runtime
calc_gradient already raises AttributeError (np.matmult); were its value
available, update_weights would raise TypeError.  On either reading no
statement assigns self.w, so the state comes back unchanged. -/
def VanillaGradientDescent.step (self : BaseDescent) (X : List (List ℚ))
    (y : List ℚ) : Except PyError (List ℚ) × BaseDescent :=
  VanillaGradientDescent.update_weights self
    (VanillaGradientDescent.calc_gradient self.w X y)

/-- Method BaseDescentReg.calc_gradient, src/template_1.py lines 145-151:
l2_gradient = np.zeros_like(X.shape[1]) builds the zero 0-dimensional
array (the source comment marks this line TODO: replace with L2 gradient
calculation), and the return statement adds l2_gradient * self.mu, a
broadcast add of the scalar zero, to super().calc_gradient(X, y).  In
class VanillaGradientDescentReg (line 154) super() resolves to
VanillaGradientDescent.  Only self.w and self.mu are read. -/
def BaseDescentReg.calc_gradient (w : List ℚ) (mu : ℚ)
    (X : List (List ℚ)) (y : List ℚ) : List ℚ :=
  let l2_gradient : ℚ := 0
  (VanillaGradientDescent.calc_gradient w X y).map
    (fun g => g + l2_gradient * mu)

/-- Regularized gradient the specification states: the wrapped variant
gradient plus mu * 2 * w, the gradient of mu times the squared L2 norm. -/
def specRegGradient (w : List ℚ) (mu : ℚ) (X : List (List ℚ))
    (y : List ℚ) : List ℚ :=
  vadd (VanillaGradientDescent.calc_gradient w X y)
    (w.map (fun wi => mu * (2 * wi)))

/-- Class names that src/template_1.py actually defines at module level. -/
def moduleDefinedClasses : List String :=
  ["LearningRate", "LossFunction", "BaseDescent", "VanillaGradientDescent",
   "StochasticDescent", "BaseDescentReg", "VanillaGradientDescentReg",
   "StochasticDescentReg"]

/-- Entries of the dict literal descent_mapping in get_descent,
src/template_1.py lines 171-176.  Each value is a conditional expression
A if not regularized else B, so exactly one class name per key is
evaluated, chosen by the regularized flag. -/
def descent_mapping (regularized : Bool) : List (String × String) :=
  if regularized then
    [("full", "VanillaGradientDescentReg"),
     ("stochastic", "StochasticDescentReg"),
     ("momentum", "MomentumDescentReg"),
     ("adam", "AdamReg")]
  else
    [("full", "VanillaGradientDescent"),
     ("stochastic", "StochasticDescent"),
     ("momentum", "MomentumDescent"),
     ("adam", "Adam")]

/-- Function get_descent, src/template_1.py lines 167-183.  Building the
dict literal evaluates every chosen class name; a name the module does
not define raises NameError there, before the name check.  Otherwise an
unknown descent_name raises ValueError (line 179) and a known one
returns an instance of the mapped class (modelled by its name). -/
def get_descent (descent_name : String) (regularized : Bool) :
    Except PyError String :=
  if (descent_mapping regularized).all
      (fun kv => moduleDefinedClasses.contains kv.2) then
    match (descent_mapping regularized).find? (fun kv => kv.1 = descent_name) with
    | some kv => .ok kv.2
    | none => .error .valueError
  else .error .nameError

/-- Dot product of a vector with itself is a sum of squares, hence
nonnegative. -/
theorem dot_self_nonneg (v : List ℚ) : 0 ≤ dot v v := by
  induction v with
  | nil => simp [dot]
  | cons a t ih =>
      have h : dot (a :: t) (a :: t) = a * a + dot t t := by
        simp [dot]
      rw [h]
      have := mul_self_nonneg a
      linarith

/-- Subtracting a vector from itself gives the zero dot product. -/
theorem dot_vsub_self (v : List ℚ) : dot (vsub v v) (vsub v v) = 0 := by
  induction v with
  | nil => simp [dot, vsub]
  | cons a t ih =>
      have h : vsub (a :: t) (a :: t) = 0 :: vsub t t := by
        simp [vsub]
      rw [h]
      have h2 : dot (0 :: vsub t t) (0 :: vsub t t)
          = 0 * 0 + dot (vsub t t) (vsub t t) := by
        simp [dot]
      rw [h2, ih]
      ring

/-- C1.  The claim states that the full-batch calc_gradient returns
2 * transpose(X) . (X.w - y).  The source line 105 instead writes the
residual y - X.w (besides calling np.matmult, which numpy does not
define, an AttributeError at runtime).  At X = [[1]], y = [0], w = [1]
the written expression evaluates to [-2] while the claimed formula gives
[2]: the code computes the negation of the documented MSE gradient. -/
theorem vanilla_calc_gradient_sign_flipped_at_input :
    VanillaGradientDescent.calc_gradient [1] [[1]] [0] = [-2]
    ∧ specMSEGradient [1] [[1]] [0] = [2]
    ∧ ([-2] : List ℚ) ≠ [2] := by
  refine ⟨?_, ?_, by norm_num⟩ <;>
    norm_num [VanillaGradientDescent.calc_gradient, specMSEGradient, smul,
      matVec, dot, vsub, transpose, consCols, List.zipWith]

/-- C2.  The claim states that update_weights draws one rate from the
schedule, applies delta = -rate * g to w in place and returns it.  The
body return -self.lr * gradient negates the LearningRate object itself:
the call raises TypeError, the schedule iteration counter is not
advanced and the weight vector is not written.  Evaluated at a concrete
instance with w = [1], schedule state (1, 1, 1, 0) and gradient [1]. -/
theorem vanilla_update_weights_raises_type_error :
    VanillaGradientDescent.update_weights ⟨[1], ⟨1, 1, 1, 0⟩, .MSE⟩ [1]
      = (.error .typeError, ⟨[1], ⟨1, 1, 1, 0⟩, .MSE⟩) :=
  rfl

/-- C4.  The claim states that the regularized calc_gradient returns the
wrapped gradient plus mu * 2 * w.  The source line 149 sets l2_gradient
to the zero array (its TODO comment still asks for the L2 gradient), so
the mu term contributes nothing.  At w = [3], mu = 1, X = [[1]], y = [0]
the code returns the bare wrapped gradient [-6] while the claimed value
is [0]. -/
theorem reg_calc_gradient_ignores_l2_at_input :
    BaseDescentReg.calc_gradient [3] 1 [[1]] [0]
      = VanillaGradientDescent.calc_gradient [3] [[1]] [0]
    ∧ BaseDescentReg.calc_gradient [3] 1 [[1]] [0] = [-6]
    ∧ specRegGradient [3] 1 [[1]] [0] = [0]
    ∧ ([-6] : List ℚ) ≠ [0] := by
  refine ⟨?_, ?_, ?_, by norm_num⟩ <;>
    norm_num [BaseDescentReg.calc_gradient, specRegGradient,
      VanillaGradientDescent.calc_gradient, smul, matVec, dot, vsub, vadd,
      transpose, consCols, List.zipWith]

/-- C5.  With mu = 0 the regularized calc_gradient returns exactly the
gradient of the wrapped unregularized variant, for every weight vector
and every input: the added term l2_gradient * mu is zero twice over, so
the two variants produce identical gradients (and the regularized class
overrides nothing else, so behavior coincides). -/
theorem reg_mu_zero_gradient_eq_unregularized (w : List ℚ)
    (X : List (List ℚ)) (y : List ℚ) :
    BaseDescentReg.calc_gradient w 0 X y
      = VanillaGradientDescent.calc_gradient w X y := by
  simp [BaseDescentReg.calc_gradient]

/-- C6 counterexample.  The claim quantifies over every schedule with
s0 > 0 and asserts a strictly decreasing rate sequence whenever p > 0.
The schedule LearningRate(0, 1, 1) has s0 = 1 > 0 and p = 1 > 0, yet its
first two calls both return 0: with lambda_ = 0 the sequence is constant,
so positivity of lambda_ is also needed. -/
theorem learning_rate_zero_lambda_not_decreasing :
    (0 : ℝ) < (LearningRate.mk 0 1 1 0).s0
    ∧ (0 : ℝ) < (LearningRate.mk 0 1 1 0).p
    ∧ ((LearningRate.mk 0 1 1 0).call.2.call).1
        = (LearningRate.mk 0 1 1 0).call.1 := by
  refine ⟨by norm_num, by norm_num, ?_⟩
  simp [LearningRate.call]

/-- C6 amended.  For every schedule state with s0 > 0: each call returns
lambda_ * (s0 / (s0 + iteration))^p evaluated with the counter already
incremented, the counter advances by exactly one, the first returned
value (from iteration 0) is lambda_ * (s0 / (s0 + 1))^p, the returned
values of two successive calls strictly decrease when p > 0 and
additionally lambda_ > 0, and they are equal when p = 0. -/
theorem learning_rate_call_spec (lr : LearningRate) (hs0 : 0 < lr.s0) :
    lr.call.1 = lr.lambda_ * (lr.s0 / (lr.s0 + ((lr.iteration : ℝ) + 1))) ^ lr.p
    ∧ lr.call.2.iteration = lr.iteration + 1
    ∧ (lr.iteration = 0 →
        lr.call.1 = lr.lambda_ * (lr.s0 / (lr.s0 + 1)) ^ lr.p)
    ∧ (0 < lr.p → 0 < lr.lambda_ → lr.call.2.call.1 < lr.call.1)
    ∧ (lr.p = 0 → lr.call.2.call.1 = lr.call.1) := by
  refine ⟨rfl, rfl, ?_, ?_, ?_⟩
  · intro h0
    simp [LearningRate.call, h0]
  · intro hp hl
    have hit : (0 : ℝ) ≤ (lr.iteration : ℝ) := Nat.cast_nonneg _
    have hd1 : 0 < lr.s0 + ((lr.iteration : ℝ) + 1) := by linarith
    have hlt : lr.s0 + ((lr.iteration : ℝ) + 1)
        < lr.s0 + (((lr.iteration + 1 : ℕ) : ℝ) + 1) := by
      push_cast
      linarith
    have hd2 : 0 < lr.s0 + (((lr.iteration + 1 : ℕ) : ℝ) + 1) := by
      push_cast
      linarith
    have hfrac : lr.s0 / (lr.s0 + (((lr.iteration + 1 : ℕ) : ℝ) + 1))
        < lr.s0 / (lr.s0 + ((lr.iteration : ℝ) + 1)) :=
      div_lt_div_of_pos_left hs0 hd1 hlt
    have hnn : (0 : ℝ) ≤ lr.s0 / (lr.s0 + (((lr.iteration + 1 : ℕ) : ℝ) + 1)) :=
      le_of_lt (div_pos hs0 hd2)
    have hpow := Real.rpow_lt_rpow hnn hfrac hp
    have := mul_lt_mul_of_pos_left hpow hl
    simpa [LearningRate.call] using this
  · intro hp0
    simp [LearningRate.call, hp0]

/-- C6 witness: the amended statement discharged at the concrete schedule
state LearningRate(1, 1, 1) with counter 0; among its conclusions, the
counter after the first call is 1. -/
theorem learning_rate_call_spec_witness :
    (0 : ℝ) < (LearningRate.mk 1 1 1 0).s0
    ∧ (LearningRate.mk 1 1 1 0).call.2.iteration
        = (LearningRate.mk 1 1 1 0).iteration + 1 :=
  ⟨by norm_num,
   (learning_rate_call_spec (LearningRate.mk 1 1 1 0) (by norm_num)).2.1⟩

/-- C7.  For every valid input (every row of X as long as w, as many rows
as targets, and at least one target), calc_loss with the MSE loss returns
(1/n) * (diff . diff) with diff = y - predict(X); that value is
nonnegative, and the returned loss is 0 whenever the prediction equals y
exactly. -/
theorem calc_loss_mse_formula (w : List ℚ) (X : List (List ℚ)) (y : List ℚ)
    (hcols : ∀ row ∈ X, row.length = w.length)
    (hrows : X.length = y.length) (hn : 0 < y.length) :
    BaseDescent.calc_loss w X y
      = .ok ((1 / (y.length : ℚ))
          * dot (vsub y (matVec X w)) (vsub y (matVec X w)))
    ∧ 0 ≤ (1 / (y.length : ℚ))
          * dot (vsub y (matVec X w)) (vsub y (matVec X w))
    ∧ (matVec X w = y → BaseDescent.calc_loss w X y = .ok 0) := by
  have hpred : BaseDescent.predict w X = .ok (matVec X w) := by
    simp only [BaseDescent.predict]
    rw [if_pos hcols]
  have hlen : y.length = (matVec X w).length := by
    simp [matVec]
    omega
  have hne : y.length ≠ 0 := Nat.pos_iff_ne_zero.mp hn
  have hmain : BaseDescent.calc_loss w X y
      = .ok ((1 / (y.length : ℚ))
          * dot (vsub y (matVec X w)) (vsub y (matVec X w))) := by
    simp only [BaseDescent.calc_loss, hpred]
    rw [if_pos hlen, if_neg hne]
  refine ⟨hmain, ?_, ?_⟩
  · have h1 : (0 : ℚ) ≤ 1 / (y.length : ℚ) := by positivity
    exact mul_nonneg h1 (dot_self_nonneg _)
  · intro heq
    rw [hmain, heq, dot_vsub_self, mul_zero]

/-- C7 witness: the statement discharged at the valid concrete input
w = [1], X = [[1]], y = [1], where the prediction matches y exactly. -/
theorem calc_loss_mse_formula_witness :
    (∀ row ∈ [[(1 : ℚ)]], row.length = [(1 : ℚ)].length)
    ∧ [[(1 : ℚ)]].length = [(1 : ℚ)].length
    ∧ 0 < [(1 : ℚ)].length
    ∧ (BaseDescent.calc_loss [1] [[1]] [1]
        = .ok ((1 / (([(1 : ℚ)].length : ℕ) : ℚ))
            * dot (vsub [1] (matVec [[1]] [1])) (vsub [1] (matVec [[1]] [1])))
      ∧ 0 ≤ (1 / (([(1 : ℚ)].length : ℕ) : ℚ))
            * dot (vsub [1] (matVec [[1]] [1])) (vsub [1] (matVec [[1]] [1]))
      ∧ (matVec [[1]] [1] = [1] →
          BaseDescent.calc_loss [1] [[1]] [1] = .ok 0)) :=
  ⟨by decide, rfl, by decide,
   calc_loss_mse_formula [1] [[1]] [1] (by decide) rfl (by decide)⟩

/-- C8.  The claim states that the factory returns an instance of the
matching class for the four valid names and raises only for others.  The
dict literal in get_descent evaluates MomentumDescent, Adam (or their
regularized twins), names src/template_1.py never defines, so every call
raises NameError, the valid name full included. -/
theorem get_descent_always_raises_name_error :
    get_descent "full" false = .error .nameError
    ∧ get_descent "full" true = .error .nameError
    ∧ get_descent "stochastic" false = .error .nameError
    ∧ get_descent "bogus" false = .error .nameError :=
  ⟨rfl, rfl, rfl, rfl⟩

/-- C9 counterexample.  At the shape-mismatched input X = [[1, 2]] with
weight vector [1], predict raises the numpy ValueError, not the
DimensionMismatch error the claim names: no DimensionMismatch class
exists in the source. -/
theorem predict_error_is_not_dimension_mismatch :
    BaseDescent.predict [1] [[1, 2]] = .error .valueError
    ∧ PyError.valueError ≠ PyError.dimensionMismatch :=
  ⟨by rfl, by decide⟩

/-- C9 amended.  When the row length of X differs from the length of w,
predict fails with the ValueError that np.matmul raises (the source
defines no DimensionMismatch class), and a failed step leaves the
instance, its weight vector included, completely unchanged, since no
code path assigns self.w. -/
theorem predict_value_error_and_step_keeps_w (self : BaseDescent)
    (X : List (List ℚ)) (y : List ℚ)
    (h : ¬ ∀ row ∈ X, row.length = self.w.length) :
    BaseDescent.predict self.w X = .error .valueError
    ∧ (VanillaGradientDescent.step self X y).2 = self := by
  refine ⟨?_, rfl⟩
  simp only [BaseDescent.predict, if_neg h]

/-- C9 witness: the amended statement discharged at the concrete instance
with w = [1] and the mismatched input X = [[1, 2]], y = [1]. -/
theorem predict_value_error_and_step_keeps_w_witness :
    (¬ ∀ row ∈ [[(1 : ℚ), 2]],
        row.length = (BaseDescent.mk [1] ⟨1, 1, 1, 0⟩ .MSE).w.length)
    ∧ (BaseDescent.predict (BaseDescent.mk [1] ⟨1, 1, 1, 0⟩ .MSE).w [[1, 2]]
        = .error .valueError
      ∧ (VanillaGradientDescent.step
          (BaseDescent.mk [1] ⟨1, 1, 1, 0⟩ .MSE) [[1, 2]] [1]).2
        = BaseDescent.mk [1] ⟨1, 1, 1, 0⟩ .MSE) :=
  ⟨by decide,
   predict_value_error_and_step_keeps_w
     (BaseDescent.mk [1] ⟨1, 1, 1, 0⟩ .MSE) [[1, 2]] [1] (by decide)⟩

/-- C10.  On a bare BaseDescent instance the abstract methods
calc_gradient and update_weights have the body pass and step composes
them: all three return the value None (none) for every input, as total
functions of their arguments, so no NotImplementedError or any other
exception signals that the operation is unimplemented. -/
theorem base_descent_abstract_methods_return_none (X : List (List ℚ))
    (y : List ℚ) (g : Option (List ℚ)) :
    BaseDescent.calc_gradient X y = none
    ∧ BaseDescent.update_weights g = none
    ∧ BaseDescent.step X y = none :=
  ⟨rfl, rfl, rfl⟩

end GD
